import Mathlib

/-
Shallow embedding of the data-aggregation and anomaly-detection pipeline of
`src/daily_report.py` and `src/daily_report_kr.py`.

Modelling conventions:
* Python floats/ints that carry metric values are embedded as `ℚ`; every
  operation the embedded code performs on them (+, -, *, /, abs, comparisons)
  is exact, so `ℚ` is a faithful carrier for the properties studied here.
* Python dicts keyed by ISO date strings are embedded as association lists
  (`List (String × α)`); `data[k] = v` on an existing key is `setKey`,
  `k in data` is `containsKey`, `data[k]` (which raises `KeyError` when the
  key is absent) is `List.lookup` into `Option`, `data.get(k, default)` is
  `(List.lookup k data).getD default`.
* Calendar dates used in window arithmetic are embedded as `ℤ` day numbers
  (`date ± timedelta(days = n)` becomes `d ± n`); date keys used by the merge
  code stay `String`, mirroring the source, which also uses both views.
* Display-only string formatting (`format_int`, currency strings, the f-string
  `detail` texts of findings, HTML) is not modelled; the branching that decides
  WHICH values/cards/findings are produced is modelled exactly.
-/

namespace DailyReport

/-- Function `safe_div` from daily_report.py lines 68-71. -/
def safe_div (numerator denominator : ℚ) : ℚ :=
  if denominator = 0 then 0 else numerator / denominator

/-- The arrow character chosen by `format_delta` (daily_report.py lines 90-95). -/
inductive Arrow
  | up
  | down
  | flat
deriving DecidableEq

/-- Function `format_delta` from daily_report.py lines 86-96: returns `None` when
`previous == 0`, otherwise the arrow together with `abs(delta)` where
`delta = (current - previous) / previous * 100`. -/
def format_delta (current previous : ℚ) : Option (Arrow × ℚ) :=
  if previous = 0 then none
  else
    let delta := (current - previous) / previous * 100
    let arrow := if delta > 0 then Arrow.up else if delta < 0 then Arrow.down else Arrow.flat
    some (arrow, |delta|)

/-- Function `delta_pct` from `_build_ai_summary` (daily_report.py lines 600-603):
`None` when `prev <= 0`, else the numeric period-over-period delta. -/
def delta_pct (current prev : ℚ) : Option ℚ :=
  if prev ≤ 0 then none else some ((current - prev) / prev * 100)

/-- Function `iso_date_range` (daily_report.py lines 99-101) over ℤ day numbers:
the `(end - start).days + 1` consecutive days starting at `start`. -/
def iso_date_range (s e : ℤ) : List ℤ :=
  (List.range (e - s + 1).toNat).map (fun (offset : ℕ) => s + (offset : ℤ))

/-- Function `safe_date_range` (daily_report.py lines 104-107). -/
def safe_date_range (s e : ℤ) : List ℤ :=
  if s > e then [] else iso_date_range s e

/-- The comparison windows computed by `collect_all_data`
(daily_report.py lines 180-194). -/
structure Windows where
  last_7_dates : List ℤ
  prev_7_dates : List ℤ
  last_30_complete_dates : List ℤ
  prev_30_dates : List ℤ

/-- The window computation of `collect_all_data` (daily_report.py lines 183-194). -/
def collect_windows (s e : ℤ) : Windows :=
  let last_7_end := e - 1
  let last_7_start := max s (last_7_end - 6)
  let last_7_dates := safe_date_range last_7_start last_7_end
  let last_30_end := e - 1
  let last_30_complete_start := max s (last_30_end - 29)
  let last_30_complete_dates := safe_date_range last_30_complete_start last_30_end
  let prev_7_end := last_7_start - 1
  let prev_7_start := max s (prev_7_end - 6)
  let prev_7_dates := if last_7_dates.isEmpty then [] else safe_date_range prev_7_start prev_7_end
  let prev_30_end := last_30_complete_start - 1
  let prev_30_start := max s (prev_30_end - 29)
  let prev_30_dates := if last_30_complete_dates.isEmpty then [] else safe_date_range prev_30_start prev_30_end
  ⟨last_7_dates, prev_7_dates, last_30_complete_dates, prev_30_dates⟩

lemma length_iso_date_range (s e : ℤ) : (iso_date_range s e).length = (e - s + 1).toNat := by
  unfold iso_date_range
  rw [List.length_map, List.length_range]

lemma mem_iso_date_range {s e d : ℤ} :
    d ∈ iso_date_range s e ↔ s ≤ d ∧ d < s + (e - s + 1).toNat := by
  simp only [iso_date_range, List.mem_map, List.mem_range]
  constructor
  · rintro ⟨i, hi, rfl⟩
    omega
  · rintro ⟨h1, h2⟩
    exact ⟨(d - s).toNat, by omega, by omega⟩

lemma mem_safe_date_range {s e d : ℤ} :
    d ∈ safe_date_range s e ↔ s ≤ d ∧ d ≤ e := by
  unfold safe_date_range
  by_cases h : s > e
  · simp only [if_pos h, List.not_mem_nil, false_iff]
    omega
  · rw [if_neg h, mem_iso_date_range]
    omega

lemma length_safe_date_range (s e : ℤ) :
    (safe_date_range s e).length ≤ (e - s + 1).toNat := by
  unfold safe_date_range
  by_cases h : s > e
  · simp [h]
  · rw [if_neg h, length_iso_date_range]

lemma collect_windows_eq (s e : ℤ) :
    collect_windows s e =
      ⟨safe_date_range (max s (e - 1 - 6)) (e - 1),
       if (safe_date_range (max s (e - 1 - 6)) (e - 1)).isEmpty then []
       else safe_date_range (max s (max s (e - 1 - 6) - 1 - 6)) (max s (e - 1 - 6) - 1),
       safe_date_range (max s (e - 1 - 29)) (e - 1),
       if (safe_date_range (max s (e - 1 - 29)) (e - 1)).isEmpty then []
       else safe_date_range (max s (max s (e - 1 - 29) - 1 - 29)) (max s (e - 1 - 29) - 1)⟩ :=
  rfl

/-- C5: for every `start ≤ end`, `last7` has length at most 7, never contains
`end`, is clipped at `start`, and is empty (not an error) when
`last7_start > last7_end`; `prev7` is empty whenever `last7` is; the 30-day
windows satisfy the same pattern (`last30` ends at `end - 1` with length at
most 30, `prev30` empty whenever `last30` is). -/
theorem window_invariants (s e : ℤ) (h : s ≤ e) :
    (collect_windows s e).last_7_dates.length ≤ 7 ∧
    e ∉ (collect_windows s e).last_7_dates ∧
    (∀ d ∈ (collect_windows s e).last_7_dates, s ≤ d) ∧
    (max s (e - 1 - 6) > e - 1 → (collect_windows s e).last_7_dates = []) ∧
    ((collect_windows s e).last_7_dates = [] → (collect_windows s e).prev_7_dates = []) ∧
    (collect_windows s e).last_30_complete_dates.length ≤ 30 ∧
    (∀ d ∈ (collect_windows s e).last_30_complete_dates, d ≤ e - 1) ∧
    ((collect_windows s e).last_30_complete_dates ≠ [] →
      (e - 1) ∈ (collect_windows s e).last_30_complete_dates) ∧
    ((collect_windows s e).last_30_complete_dates = [] → (collect_windows s e).prev_30_dates = []) := by
  rw [collect_windows_eq]
  refine ⟨?_, ?_, ?_, ?_, ?_, ?_, ?_, ?_, ?_⟩
  · calc (safe_date_range (max s (e - 1 - 6)) (e - 1)).length
        ≤ ((e - 1) - max s (e - 1 - 6) + 1).toNat := length_safe_date_range _ _
      _ ≤ 7 := by omega
  · intro hmem
    rw [mem_safe_date_range] at hmem
    omega
  · intro d hd
    rw [mem_safe_date_range] at hd
    omega
  · intro hgt
    unfold safe_date_range
    rw [if_pos hgt]
  · intro hnil
    have hnil' : safe_date_range (max s (e - 1 - 6)) (e - 1) = [] := hnil
    simp only [hnil', List.isEmpty_nil, if_true]
  · calc (safe_date_range (max s (e - 1 - 29)) (e - 1)).length
        ≤ ((e - 1) - max s (e - 1 - 29) + 1).toNat := length_safe_date_range _ _
      _ ≤ 30 := by omega
  · intro d hd
    rw [mem_safe_date_range] at hd
    omega
  · intro hne
    rw [mem_safe_date_range]
    rcases le_or_lt (max s (e - 1 - 29)) (e - 1) with hle | hlt
    · omega
    · exact absurd (by unfold safe_date_range; rw [if_pos hlt]) hne
  · intro hnil
    have hnil' : safe_date_range (max s (e - 1 - 29)) (e - 1) = [] := hnil
    simp only [hnil', List.isEmpty_nil, if_true]

/-- Witness for `window_invariants` on the concrete range day 0 .. day 10. -/
theorem window_invariants_witness :
    (0 : ℤ) ≤ 10 ∧
    (collect_windows 0 10).last_7_dates.length ≤ 7 ∧
    (10 : ℤ) ∉ (collect_windows 0 10).last_7_dates :=
  ⟨by norm_num, (window_invariants 0 10 (by norm_num)).1,
    (window_invariants 0 10 (by norm_num)).2.1⟩

/-! ### Date-keyed dicts and the provider-row merge
(`_get_ga4_daily_series` lines 280-294, `_get_ads_daily_series` lines 296-336) -/

/-- A Python dict keyed by date strings, as an association list. -/
abbrev Dict (α : Type) : Type := List (String × α)

/-- Python `k in data`. -/
def containsKey (data : Dict α) (k : String) : Bool :=
  (List.lookup k data).isSome

/-- Python `data[k] = f (data[k])` on an existing key: rewrite the entry in place. -/
def setKey (data : Dict α) (k : String) (f : α → α) : Dict α :=
  data.map (fun p => if p.1 = k then (p.1, f p.2) else p)

/-- Function `parse_ga4_date` (daily_report.py lines 110-113). -/
def parse_ga4_date (value : String) : String :=
  if value.length = 8 then
    value.take 4 ++ "-" ++ ((value.drop 4).take 2) ++ "-" ++ value.drop 6
  else value

/-- One GA4 per-date bucket: `{"sessions": _, "activeUsers": _}`. -/
structure Ga4Day where
  sessions : ℚ
  activeUsers : ℚ
deriving DecidableEq

/-- A raw GA4 row as it comes back from `GA4Client.run_report` with
dimensions `["date"]` and metrics `["sessions", "activeUsers"]`. -/
structure Ga4Row where
  date : String
  sessions : ℚ
  activeUsers : ℚ

/-- The body of the row loop of `_get_ga4_daily_series` (lines 288-293):
skip rows whose (parsed) date is not a pre-allocated key, otherwise ASSIGN
the row's values into the bucket (`=`, not `+=`). -/
def ga4_merge_row (data : Dict Ga4Day) (row : Ga4Row) : Dict Ga4Day :=
  let date_key := parse_ga4_date row.date
  if containsKey data date_key then
    setKey data date_key (fun _ => ⟨row.sessions, row.activeUsers⟩)
  else data

/-- Method `_get_ga4_daily_series` (lines 280-294): zero-initialise a bucket for
every window date, then fold the provider rows in order. -/
def ga4_daily_series (all_dates : List String) (rows : List Ga4Row) : Dict Ga4Day :=
  rows.foldl ga4_merge_row (all_dates.map (fun d => (d, ⟨0, 0⟩)))

/-- One ads per-date bucket (daily_report.py lines 313-322). -/
structure AdsDay where
  cost : ℚ
  impressions : ℚ
  clicks : ℚ
  conversions : ℚ
  conversion_value : ℚ
deriving DecidableEq

/-- A raw Google Ads row: `conversions_value` is `none` when the fallback
query (without `metrics.conversions_value`) was used. -/
structure AdsRow where
  date : String
  cost_micros : ℚ
  impressions : ℚ
  clicks : ℚ
  conversions : ℚ
  conversions_value : Option ℚ

/-- The additive contribution of one in-window ads row to its bucket
(daily_report.py lines 328-335). -/
def ads_add (v : AdsDay) (row : AdsRow) : AdsDay :=
  { cost := v.cost + row.cost_micros / 1000000
    impressions := v.impressions + row.impressions
    clicks := v.clicks + row.clicks
    conversions := v.conversions + row.conversions
    conversion_value := v.conversion_value + (row.conversions_value.getD 0) }

/-- The body of the row loop of `_get_ads_daily_series` (lines 324-335):
rows with an unknown date are dropped; otherwise each counter is `+=`-merged,
and `has_conv_value` is set when the row carried `conversions_value`. -/
def ads_merge_row (acc : Dict AdsDay × Bool) (row : AdsRow) : Dict AdsDay × Bool :=
  if containsKey acc.1 row.date then
    (setKey acc.1 row.date (fun v => ads_add v row),
     acc.2 || row.conversions_value.isSome)
  else acc

/-- Method `_get_ads_daily_series` (lines 296-336): zero-initialise every window
date, then fold the rows; also returns the `has_conv_value` flag. -/
def ads_daily_series (all_dates : List String) (rows : List AdsRow) : Dict AdsDay × Bool :=
  rows.foldl ads_merge_row (all_dates.map (fun d => (d, ⟨0, 0, 0, 0, 0⟩)), false)

lemma keys_setKey (data : Dict α) (k : String) (f : α → α) :
    (setKey data k f).map Prod.fst = data.map Prod.fst := by
  induction data with
  | nil => rfl
  | cons p rest ih =>
    simp only [setKey, List.map_cons] at *
    by_cases h : p.1 = k
    · simp [h, ih]
    · simp [h, ih]

lemma keys_ga4_merge_row (data : Dict Ga4Day) (row : Ga4Row) :
    (ga4_merge_row data row).map Prod.fst = data.map Prod.fst := by
  unfold ga4_merge_row
  by_cases h : containsKey data (parse_ga4_date row.date)
  · simp only [h, if_true, keys_setKey]
  · simp only [h]
    rw [if_neg (by simp [h])]

lemma keys_ads_merge_row (acc : Dict AdsDay × Bool) (row : AdsRow) :
    (ads_merge_row acc row).1.map Prod.fst = acc.1.map Prod.fst := by
  unfold ads_merge_row
  by_cases h : containsKey acc.1 row.date
  · simp only [h, if_true, keys_setKey]
  · simp only [h]
    rw [if_neg (by simp [h])]

lemma keys_ga4_daily_series (all_dates : List String) (rows : List Ga4Row) :
    (ga4_daily_series all_dates rows).map Prod.fst = all_dates := by
  unfold ga4_daily_series
  suffices h : ∀ (init : Dict Ga4Day),
      (rows.foldl ga4_merge_row init).map Prod.fst = init.map Prod.fst by
    rw [h, List.map_map]
    exact List.map_id all_dates
  intro init
  induction rows generalizing init with
  | nil => rfl
  | cons r rest ih =>
    rw [List.foldl_cons, ih, keys_ga4_merge_row]

lemma keys_ads_daily_series (all_dates : List String) (rows : List AdsRow) :
    (ads_daily_series all_dates rows).1.map Prod.fst = all_dates := by
  unfold ads_daily_series
  suffices h : ∀ (init : Dict AdsDay × Bool),
      (rows.foldl ads_merge_row init).1.map Prod.fst = init.1.map Prod.fst by
    rw [h, List.map_map]
    exact List.map_id all_dates
  intro init
  induction rows generalizing init with
  | nil => rfl
  | cons r rest ih =>
    rw [List.foldl_cons, ih, keys_ads_merge_row]

lemma lookup_setKey (data : Dict α) (k : String) (f : α → α) :
    List.lookup k (setKey data k f) = (List.lookup k data).map f := by
  induction data with
  | nil => rfl
  | cons p rest ih =>
    obtain ⟨a, b⟩ := p
    by_cases h : a = k
    · subst h
      simp only [setKey, List.map_cons]
      rw [if_pos trivial]
      simp [List.lookup]
    · have hbeq : (k == a) = false := by simpa [beq_iff_eq] using Ne.symm h
      simp only [setKey, List.map_cons]
      rw [if_neg (by simpa using h)]
      rw [List.lookup_cons, List.lookup_cons]
      simp only [hbeq]
      simpa [setKey] using ih

/-- C1 (amended): the key set of both daily series equals the pre-initialised
window dates; rows whose date is not a pre-allocated key are dropped; an
in-window ads row contributes ADDITIVELY to its bucket, while an in-window
GA4 row OVERWRITES its bucket with the row's values (lines 292-293 use `=`,
lines 328-335 use `+=`). -/
theorem merge_rule_amended :
    (∀ (all_dates : List String) (grows : List Ga4Row) (arows : List AdsRow),
      (ga4_daily_series all_dates grows).map Prod.fst = all_dates ∧
      (ads_daily_series all_dates arows).1.map Prod.fst = all_dates) ∧
    (∀ (data : Dict Ga4Day) (row : Ga4Row),
      containsKey data (parse_ga4_date row.date) = false → ga4_merge_row data row = data) ∧
    (∀ (data : Dict Ga4Day) (row : Ga4Row),
      containsKey data (parse_ga4_date row.date) = true →
      List.lookup (parse_ga4_date row.date) (ga4_merge_row data row) =
        (List.lookup (parse_ga4_date row.date) data).map
          (fun _ => ⟨row.sessions, row.activeUsers⟩)) ∧
    (∀ (acc : Dict AdsDay × Bool) (row : AdsRow),
      containsKey acc.1 row.date = false → ads_merge_row acc row = acc) ∧
    (∀ (acc : Dict AdsDay × Bool) (row : AdsRow),
      containsKey acc.1 row.date = true →
      List.lookup row.date (ads_merge_row acc row).1 =
        (List.lookup row.date acc.1).map (fun v => ads_add v row)) := by
  refine ⟨fun all_dates grows arows =>
      ⟨keys_ga4_daily_series all_dates grows, keys_ads_daily_series all_dates arows⟩,
    ?_, ?_, ?_, ?_⟩
  · intro data row h
    unfold ga4_merge_row
    rw [if_neg (by simp [h])]
  · intro data row h
    unfold ga4_merge_row
    rw [if_pos (by simp [h]), lookup_setKey]
  · intro acc row h
    unfold ads_merge_row
    rw [if_neg (by simp [h])]
  · intro acc row h
    unfold ads_merge_row
    rw [if_pos (by simp [h])]
    exact lookup_setKey acc.1 row.date (fun v => ads_add v row)

/-- Witness for `merge_rule_amended` at concrete inputs. -/
theorem merge_rule_amended_witness :
    (ga4_daily_series ["2024-01-01"] []).map Prod.fst = ["2024-01-01"] ∧
    ga4_merge_row [] ⟨"2024-01-02", 5, 5⟩ = [] ∧
    List.lookup (parse_ga4_date "2024-01-01")
        (ga4_merge_row [("2024-01-01", ⟨0, 0⟩)] ⟨"2024-01-01", 5, 6⟩) =
      (List.lookup (parse_ga4_date "2024-01-01")
          ([("2024-01-01", ⟨0, 0⟩)] : Dict Ga4Day)).map (fun _ => ⟨5, 6⟩) ∧
    ads_merge_row ([], false) ⟨"2024-01-02", 1, 1, 1, 1, none⟩ = ([], false) ∧
    List.lookup "2024-01-01"
        (ads_merge_row ([("2024-01-01", ⟨0, 0, 0, 0, 0⟩)], false)
          ⟨"2024-01-01", 1000000, 2, 3, 4, some 5⟩).1 =
      (List.lookup "2024-01-01" ([("2024-01-01", ⟨0, 0, 0, 0, 0⟩)] : Dict AdsDay)).map
        (fun v => ads_add v ⟨"2024-01-01", 1000000, 2, 3, 4, some 5⟩) :=
  ⟨(merge_rule_amended.1 ["2024-01-01"] [] []).1,
   merge_rule_amended.2.1 [] ⟨"2024-01-02", 5, 5⟩ (by decide),
   merge_rule_amended.2.2.1 [("2024-01-01", ⟨0, 0⟩)] ⟨"2024-01-01", 5, 6⟩ (by decide),
   merge_rule_amended.2.2.2.1 ([], false) ⟨"2024-01-02", 1, 1, 1, 1, none⟩ (by decide),
   merge_rule_amended.2.2.2.2 ([("2024-01-01", ⟨0, 0, 0, 0, 0⟩)], false)
     ⟨"2024-01-01", 1000000, 2, 3, 4, some 5⟩ (by decide)⟩

/-- C1 counterexample: two GA4 rows sharing the date `2024-01-01` leave the
bucket at the LAST row's value (2 sessions), not at the sum (1 + 2): the GA4
merge is not additive. -/
theorem ga4_merge_not_additive :
    (List.lookup "2024-01-01"
        (ga4_daily_series ["2024-01-01"]
          [⟨"2024-01-01", 1, 1⟩, ⟨"2024-01-01", 2, 2⟩])).map Ga4Day.sessions =
      some 2 ∧ (2 : ℚ) ≠ 1 + 2 := by
  constructor
  · rfl
  · norm_num

/-! ### Summing a field over a date window
(`sum_series` inside `_build_summary`, daily_report.py lines 349-358) -/

/-- Python `sum(daily[d][field] for d in dates)` with Python's direct subscript:
a date absent from the dict raises `KeyError`, embedded as `none`. -/
def sum_over (dates : List String) (data : Dict α) (field : α → ℚ) : Option ℚ :=
  dates.foldl
    (fun acc d =>
      match acc, List.lookup d data with
      | some s, some v => some (s + field v)
      | _, _ => none)
    (some 0)

lemma sum_over_go (dates : List String) (data : Dict α) (field : α → ℚ) (z : α)
    (h : ∀ d ∈ dates, (List.lookup d data).isSome) (init : ℚ) :
    dates.foldl
        (fun acc d =>
          match acc, List.lookup d data with
          | some s, some v => some (s + field v)
          | _, _ => none)
        (some init) =
      some (init + (dates.map (fun d => field ((List.lookup d data).getD z))).sum) := by
  induction dates generalizing init with
  | nil => simp
  | cons d rest ih =>
    have hd : (List.lookup d data).isSome := h d (List.mem_cons_self d rest)
    obtain ⟨v, hv⟩ := Option.isSome_iff_exists.mp hd
    rw [List.foldl_cons]
    have step :
        (match some init, List.lookup d data with
          | some s, some v => some (s + field v)
          | _, _ => none) = some (init + field v) := by
      rw [hv]
    rw [step, ih (fun x hx => h x (List.mem_cons_of_mem d hx))]
    rw [List.map_cons, List.sum_cons, hv]
    simp only [Option.getD_some]
    ring_nf

/-- C2 (amended): the empty date sequence sums to zero, and whenever every
requested date has an entry, `sum_over` equals the manual per-date sum; a
missing date, however, makes the lookup fail (Python raises `KeyError`)
rather than counting as zero. -/
theorem sum_over_correct (dates : List String) (data : Dict α) (field : α → ℚ) (z : α) :
    sum_over [] data field = some 0 ∧
    ((∀ d ∈ dates, (List.lookup d data).isSome) →
      sum_over dates data field =
        some ((dates.map (fun d => field ((List.lookup d data).getD z))).sum)) := by
  refine ⟨rfl, fun h => ?_⟩
  unfold sum_over
  rw [sum_over_go dates data field z h 0]
  simp

/-- Witness for `sum_over_correct` on a concrete two-day window. -/
theorem sum_over_correct_witness :
    sum_over [] ([("2024-01-01", (⟨3, 4⟩ : Ga4Day))]) Ga4Day.sessions = some 0 ∧
    sum_over ["2024-01-01", "2024-01-02"]
        ([("2024-01-01", ⟨3, 4⟩), ("2024-01-02", ⟨5, 6⟩)]) Ga4Day.sessions =
      some ((["2024-01-01", "2024-01-02"].map
        (fun d => Ga4Day.sessions
          ((List.lookup d ([("2024-01-01", ⟨3, 4⟩), ("2024-01-02", ⟨5, 6⟩)] : Dict Ga4Day)).getD
            ⟨0, 0⟩))).sum) :=
  ⟨(sum_over_correct ["2024-01-01"] [("2024-01-01", (⟨3, 4⟩ : Ga4Day))] Ga4Day.sessions ⟨0, 0⟩).1,
   (sum_over_correct ["2024-01-01", "2024-01-02"]
      [("2024-01-01", ⟨3, 4⟩), ("2024-01-02", ⟨5, 6⟩)] Ga4Day.sessions ⟨0, 0⟩).2 (by decide)⟩

/-- C2 counterexample: a date missing from the mapping does not contribute
zero; `data[d]` fails (`KeyError`), so the sum fails as a whole. -/
theorem sum_over_missing_fails :
    sum_over ["2024-01-01"] ([] : Dict Ga4Day) Ga4Day.sessions = none ∧
    (none : Option ℚ) ≠ some 0 := by
  constructor
  · rfl
  · simp

/-! ### Summary totals, ROAS gating and the card list
(`_build_summary` lines 338-485, `_format_cards` lines 487-541) -/

/-- The raw sums produced by `sum_series` (lines 349-358). -/
structure SeriesTotals where
  ga4_sessions : ℚ
  ga4_active_users : ℚ
  ads_cost : ℚ
  ads_impressions : ℚ
  ads_clicks : ℚ
  ads_conversions : ℚ
  ads_conversion_value : ℚ
deriving DecidableEq

/-- Function `sum_series` of `_build_summary`: all seven per-field sums, failing as a
whole if any date subscript fails. -/
def sum_series (ga4 : Dict Ga4Day) (ads : Dict AdsDay) (dates : List String) :
    Option SeriesTotals := do
  let s ← sum_over dates ga4 Ga4Day.sessions
  let au ← sum_over dates ga4 Ga4Day.activeUsers
  let c ← sum_over dates ads AdsDay.cost
  let im ← sum_over dates ads AdsDay.impressions
  let cl ← sum_over dates ads AdsDay.clicks
  let cv ← sum_over dates ads AdsDay.conversions
  let cvv ← sum_over dates ads AdsDay.conversion_value
  pure ⟨s, au, c, im, cl, cv, cvv⟩

/-- A period's metrics dict: raw sums plus the derived ratios, with
`ads_roas` optional (`None` when `has_conv_value` is false). -/
structure Totals extends SeriesTotals where
  ads_ctr : ℚ
  ads_cpc : ℚ
  ads_cpa : ℚ
  ads_roas : Option ℚ
deriving DecidableEq

/-- The ratio block attached to every window's totals
(e.g. lines 408-413 for `last_7_totals`). -/
def with_ratios (t : SeriesTotals) (has_conv_value : Bool) : Totals :=
  { toSeriesTotals := t
    ads_ctr := safe_div t.ads_clicks t.ads_impressions * 100
    ads_cpc := safe_div t.ads_cost t.ads_clicks
    ads_cpa := safe_div t.ads_cost t.ads_conversions
    ads_roas := if has_conv_value then some (safe_div t.ads_conversion_value t.ads_cost) else none }

/-- A window's totals: `sum_series` followed by the ratio block. -/
def window_totals (ga4 : Dict Ga4Day) (ads : Dict AdsDay) (dates : List String)
    (has_conv_value : Bool) : Option Totals :=
  (sum_series ga4 ads dates).map (fun t => with_ratios t has_conv_value)

/-- The yesterday/today/day-before metric dicts (lines 363-405, 447-467):
`.get` with zero defaults, then the same ratio block. -/
def day_metrics (ga4 : Dict Ga4Day) (ads : Dict AdsDay) (key : String)
    (has_conv_value : Bool) : Totals :=
  let g := (List.lookup key ga4).getD ⟨0, 0⟩
  let a := (List.lookup key ads).getD ⟨0, 0, 0, 0, 0⟩
  { ga4_sessions := g.sessions
    ga4_active_users := g.activeUsers
    ads_cost := a.cost
    ads_impressions := a.impressions
    ads_clicks := a.clicks
    ads_conversions := a.conversions
    ads_conversion_value := a.conversion_value
    ads_ctr := safe_div a.clicks a.impressions * 100
    ads_cpc := safe_div a.cost a.clicks
    ads_cpa := safe_div a.cost a.conversions
    ads_roas := if has_conv_value then some (safe_div a.conversion_value a.cost) else none }

/-- The metric key of a summary card (`_format_cards` label list, lines 488-500). -/
inductive CardKey
  | ga4Sessions
  | ga4ActiveUsers
  | adsCost
  | adsImpressions
  | adsClicks
  | adsConversions
  | adsCtr
  | adsCpc
  | adsCpa
  | adsRoas
deriving DecidableEq

/-- Python `metrics.get(key)` of `_format_cards` (line 504). -/
def metric_value (t : Totals) : CardKey → Option ℚ
  | .ga4Sessions => some t.ga4_sessions
  | .ga4ActiveUsers => some t.ga4_active_users
  | .adsCost => some t.ads_cost
  | .adsImpressions => some t.ads_impressions
  | .adsClicks => some t.ads_clicks
  | .adsConversions => some t.ads_conversions
  | .adsCtr => some t.ads_ctr
  | .adsCpc => some t.ads_cpc
  | .adsCpa => some t.ads_cpa
  | .adsRoas => t.ads_roas

/-- The label list of `_format_cards` (lines 488-500): the ROAS label is
appended only when `has_conv_value` is true. -/
def card_labels (has_conv_value : Bool) : List CardKey :=
  [.ga4Sessions, .ga4ActiveUsers, .adsCost, .adsImpressions, .adsClicks,
   .adsConversions, .adsCtr, .adsCpc, .adsCpa] ++
    if has_conv_value then [.adsRoas] else []

/-- Method `_format_cards` (lines 487-541), keeping each card's key and numeric
value: a card whose value is `None` is skipped (lines 504-506); the display
formatting is presentation-only and not modelled. -/
def format_cards (t : Totals) (has_conv_value : Bool) : List (CardKey × ℚ) :=
  (card_labels has_conv_value).filterMap (fun k => (metric_value t k).map (fun v => (k, v)))

lemma ads_daily_series_flag_go (rows : List AdsRow) (acc : Dict AdsDay × Bool)
    (h : ∀ r ∈ rows, r.conversions_value = none) :
    (rows.foldl ads_merge_row acc).2 = acc.2 := by
  induction rows generalizing acc with
  | nil => rfl
  | cons r rest ih =>
    rw [List.foldl_cons, ih _ (fun x hx => h x (List.mem_cons_of_mem r hx))]
    unfold ads_merge_row
    have hr : r.conversions_value = none := h r (List.mem_cons_self r rest)
    by_cases hc : containsKey acc.1 r.date
    · rw [if_pos (by simp [hc])]
      simp [hr]
    · rw [if_neg (by simp [hc])]

/-- C9: when `has_conv_value` is false every summary's `ads_roas` is `None`
(never zero) and the ROAS card is absent from the card list; when the flag is
true, ROAS is `safe_div(conversion_value, cost)`; and the flag stays false
when no ads row carried `conversions_value`. -/
theorem roas_gating (ga4 : Dict Ga4Day) (ads : Dict AdsDay) (dates : List String)
    (key : String) (rows : List AdsRow) (t : Totals) :
    (window_totals ga4 ads dates false = some t → t.ads_roas = none) ∧
    (day_metrics ga4 ads key false).ads_roas = none ∧
    (t.ads_roas = none → CardKey.adsRoas ∉ (format_cards t false).map Prod.fst) ∧
    (window_totals ga4 ads dates true = some t →
      t.ads_roas = some (safe_div t.ads_conversion_value t.ads_cost)) ∧
    ((∀ r ∈ rows, r.conversions_value = none) → (ads_daily_series dates rows).2 = false) := by
  refine ⟨?_, ?_, ?_, ?_, ?_⟩
  · intro h
    unfold window_totals at h
    obtain ⟨u, _, rfl⟩ := Option.map_eq_some'.mp h
    rfl
  · rfl
  · intro hnone hmem
    simp only [format_cards, card_labels, List.map_filterMap, List.mem_filterMap] at hmem
    obtain ⟨k, hk, hv⟩ := hmem
    simp only [List.append_nil, if_neg Bool.false_ne_true] at hk
    cases k <;> simp_all [metric_value]
  · intro h
    unfold window_totals at h
    obtain ⟨u, _, rfl⟩ := Option.map_eq_some'.mp h
    rfl
  · intro h
    unfold ads_daily_series
    exact ads_daily_series_flag_go rows _ h

/-- Witness for `roas_gating` at concrete inputs. -/
theorem roas_gating_witness :
    (with_ratios (⟨0 + 2, 0 + 3, 0 + 10, 0 + 100, 0 + 4, 0 + 2, 0 + 50⟩ : SeriesTotals)
        false).ads_roas = none ∧
    (day_metrics [("2024-01-01", (⟨2, 3⟩ : Ga4Day))]
        [("2024-01-01", (⟨10, 100, 4, 2, 50⟩ : AdsDay))] "2024-01-01" false).ads_roas = none ∧
    CardKey.adsRoas ∉
      (format_cards
        (with_ratios ⟨0 + 2, 0 + 3, 0 + 10, 0 + 100, 0 + 4, 0 + 2, 0 + 50⟩ false)
        false).map Prod.fst ∧
    (with_ratios (⟨0 + 2, 0 + 3, 0 + 10, 0 + 100, 0 + 4, 0 + 2, 0 + 50⟩ : SeriesTotals)
        true).ads_roas =
      some (safe_div
        (with_ratios (⟨0 + 2, 0 + 3, 0 + 10, 0 + 100, 0 + 4, 0 + 2, 0 + 50⟩ : SeriesTotals)
          true).ads_conversion_value
        (with_ratios (⟨0 + 2, 0 + 3, 0 + 10, 0 + 100, 0 + 4, 0 + 2, 0 + 50⟩ : SeriesTotals)
          true).ads_cost) ∧
    (ads_daily_series ["2024-01-01"] [⟨"2024-01-01", 5, 5, 5, 5, none⟩]).2 = false := by
  have h1 := roas_gating [("2024-01-01", (⟨2, 3⟩ : Ga4Day))]
    [("2024-01-01", (⟨10, 100, 4, 2, 50⟩ : AdsDay))] ["2024-01-01"] "2024-01-01"
    [⟨"2024-01-01", 5, 5, 5, 5, none⟩]
    (with_ratios ⟨0 + 2, 0 + 3, 0 + 10, 0 + 100, 0 + 4, 0 + 2, 0 + 50⟩ false)
  have h2 := roas_gating [("2024-01-01", (⟨2, 3⟩ : Ga4Day))]
    [("2024-01-01", (⟨10, 100, 4, 2, 50⟩ : AdsDay))] ["2024-01-01"] "2024-01-01"
    [⟨"2024-01-01", 5, 5, 5, 5, none⟩]
    (with_ratios ⟨0 + 2, 0 + 3, 0 + 10, 0 + 100, 0 + 4, 0 + 2, 0 + 50⟩ true)
  exact ⟨h1.1 rfl, h1.2.1, h1.2.2.1 (h1.1 rfl), h2.2.2.2.1 rfl,
    h1.2.2.2.2 (by intro r hr; simp at hr; rw [hr])⟩

/-! ### Period-over-period deltas (C4) -/

/-- C4 (amended): `delta_pct` reports "no comparison" (`None`) exactly when
`previous <= 0` and the numeric delta otherwise; `format_delta`, however,
reports "no comparison" only when `previous == 0` — a negative previous
still yields a numeric delta. -/
theorem delta_rules (current previous : ℚ) :
    (previous ≤ 0 → delta_pct current previous = none) ∧
    (0 < previous →
      delta_pct current previous = some ((current - previous) / previous * 100)) ∧
    (format_delta current previous = none ↔ previous = 0) := by
  refine ⟨fun h => ?_, fun h => ?_, ?_⟩
  · unfold delta_pct
    rw [if_pos h]
  · unfold delta_pct
    rw [if_neg (not_le.mpr h)]
  · unfold format_delta
    by_cases h : previous = 0
    · simp [h]
    · simp [h]

/-- Witness for `delta_rules` at concrete inputs. -/
theorem delta_rules_witness :
    delta_pct 100 (-1) = none ∧
    delta_pct 100 50 = some ((100 - 50) / 50 * 100) ∧
    (format_delta 100 0 = none ↔ (0 : ℚ) = 0) :=
  ⟨(delta_rules 100 (-1)).1 (by norm_num),
   (delta_rules 100 50).2.1 (by norm_num),
   (delta_rules 100 0).2.2⟩

/-- C4 counterexample: at `previous = -50` the claim demands "no comparison",
but `format_delta` (daily_report.py line 87 tests `previous == 0` only)
returns a numeric delta: `(100 - (-50)) / (-50) * 100 = -300`, rendered as a
down-arrow with magnitude 300. -/
theorem format_delta_negative_previous :
    format_delta 100 (-50) = some (Arrow.down, 300) ∧
    ((-50 : ℚ) ≤ 0) ∧ some (Arrow.down, (300 : ℚ)) ≠ none := by
  refine ⟨?_, by norm_num, by simp⟩
  unfold format_delta
  rw [if_neg (by norm_num)]
  norm_num

/-! ### safe_div and the guarded landing-page CPA division (C8)
(`_build_extra_chart_specs`, daily_report.py lines 1382-1396) -/

/-- A landing-page stats row as consumed by `_build_extra_chart_specs`. -/
structure LandingRow where
  url : String
  conversions : ℚ
  cost_micros : ℚ

/-- Division as Python performs it at line 1394 — raising (`none`) on a zero
denominator, with no `safe_div` guard. -/
def raw_div (n d : ℚ) : Option ℚ :=
  if d = 0 then none else some (n / d)

/-- The `values_right` computation of the `growth_landing_cpa_top10` chart
(lines 1382-1394): filter to rows with positive conversions and cost, sort
by conversions descending (stable, like Python's `list.sort`), take the top
10, and divide cost by conversions for each. -/
def growth_landing_values_right (stats : List LandingRow) : List (Option ℚ) :=
  let landing_rows := stats.filter
    (fun r => decide (r.conversions > 0) && decide (r.cost_micros > 0))
  let sorted := landing_rows.mergeSort
    (fun a b => decide (b.conversions ≤ a.conversions))
  (sorted.take 10).map (fun r => raw_div (r.cost_micros / 1000000) r.conversions)

/-- C8: `safe_div` returns 0 on a zero denominator and `n / d` otherwise; and
the one raw (unguarded by `safe_div`) ratio in the chart pipeline — the
landing-page CPA at line 1394 — can never see a zero denominator, because the
filter at line 1384 keeps only rows with `conversions > 0`. -/
theorem safe_div_and_guards :
    (∀ n d : ℚ, (d = 0 → safe_div n d = 0) ∧ (d ≠ 0 → safe_div n d = n / d)) ∧
    (∀ (stats : List LandingRow), ∀ x ∈ growth_landing_values_right stats, x.isSome) := by
  constructor
  · intro n d
    constructor
    · intro h
      unfold safe_div
      rw [if_pos h]
    · intro h
      unfold safe_div
      rw [if_neg h]
  · intro stats x hx
    unfold growth_landing_values_right at hx
    obtain ⟨r, hr, rfl⟩ := List.mem_map.mp hx
    have hr' := List.mem_of_mem_take hr
    rw [List.mem_mergeSort] at hr'
    have hpos : r.conversions > 0 := by
      have := List.of_mem_filter hr'
      simp only [Bool.and_eq_true, decide_eq_true_eq] at this
      exact this.1
    unfold raw_div
    rw [if_neg (ne_of_gt hpos)]
    rfl

/-- Witness for `safe_div_and_guards` at concrete inputs. -/
theorem safe_div_and_guards_witness :
    safe_div 5 0 = 0 ∧ safe_div 6 3 = 6 / 3 ∧
    (raw_div ((100 : ℚ) / 1000000) 2).isSome :=
  ⟨(safe_div_and_guards.1 5 0).1 rfl,
   (safe_div_and_guards.1 6 3).2 (by norm_num),
   safe_div_and_guards.2 [⟨"u", 2, 100⟩] (raw_div ((100 : ℚ) / 1000000) 2)
     (by rw [growth_landing_values_right]
         simp only [List.filter, List.mergeSort_singleton, decide_eq_true_eq]
         norm_num)⟩

/-! ### Anomaly detection and the country table
(`_detect_anomalies` at daily_report_kr.py lines 251-275 and — an identical
second copy — lines 666-690; `_build_html` country table lines 314-320) -/

/-- Constant `TARGET_COUNTRIES` (daily_report_kr.py line 24). -/
def TARGET_COUNTRIES : List String :=
  ["United States", "Canada", "United Kingdom", "Germany", "France", "Italy",
   "Spain", "Netherlands", "Belgium", "Australia", "Japan", "Singapore",
   "United Arab Emirates", "South Korea"]

/-- Finding type: the three `"type"` strings produced by `_detect_anomalies`. -/
inductive FType
  | sourceDiscrepancy
  | suspiciousTraffic
  | cityConcentration
deriving DecidableEq

/-- Finding severity strings. -/
inductive Severity
  | low
  | medium
  | high
deriving DecidableEq

/-- One anomaly finding; the human-readable `detail` f-string is
presentation-only and not modelled. -/
structure Finding where
  ftype : FType
  severity : Severity
deriving DecidableEq

/-- A `by_country` row of the geo breakdown (built by `_get_geo_data`). -/
structure CountryRow where
  country : String
  sessions : ℚ
  conversions : ℚ
  cvr : ℚ
  pct : ℚ
deriving DecidableEq

/-- A `by_city` row of the geo breakdown. -/
structure CityRow where
  city : String
  country : String
  conversions : ℚ
deriving DecidableEq

/-- The slice of `self.data` that `_detect_anomalies` reads:
`summary.conversions`, `summary.ads_conversions`, `geo.by_country`,
`geo.by_city`. -/
structure GeoSummary where
  conversions : ℚ
  ads_conversions : ℚ
  by_country : List CountryRow
  by_city : List CityRow

/-- The source-discrepancy rule (lines 253-258). -/
def disc_findings (ga4_conv ads_conv : ℚ) : List Finding :=
  if ga4_conv > 0 ∧ ads_conv > 0 then
    if |ga4_conv - ads_conv| / ga4_conv * 100 > 30 then
      [⟨.sourceDiscrepancy,
        if |ga4_conv - ads_conv| / ga4_conv * 100 > 50 then .high else .medium⟩]
    else []
  else []

/-- The per-country condition of the suspicious-traffic rule (line 261). -/
def suspicious_cond (c : CountryRow) : Bool :=
  decide (c.country ∉ TARGET_COUNTRIES ∧ c.cvr > 10 ∧ c.conversions > 10)

/-- The suspicious-traffic rule (lines 260-263): one `high` finding per
qualifying country. -/
def suspicious_findings (by_country : List CountryRow) : List Finding :=
  (by_country.filter suspicious_cond).map (fun _ => ⟨.suspiciousTraffic, .high⟩)

/-- The city-concentration rule (lines 265-273): among the first 3 cities
(the list arrives sorted by conversions), flag `medium` when the city's
share of total conversions exceeds 25% and the country is not targeted. -/
def city_findings (by_city : List CityRow) : List Finding :=
  if by_city.isEmpty then []
  else
    let total := (by_city.map CityRow.conversions).sum
    (by_city.take 3).filterMap (fun c =>
      if total > 0 then
        if c.conversions / total * 100 > 25 ∧ c.country ∉ TARGET_COUNTRIES then
          some ⟨.cityConcentration, .medium⟩
        else none
      else none)

/-- Method `_detect_anomalies`, first copy (daily_report_kr.py lines 251-275). -/
def detect_anomalies (s : GeoSummary) : List Finding :=
  disc_findings s.conversions s.ads_conversions ++
    suspicious_findings s.by_country ++ city_findings s.by_city

/-- Method `_detect_anomalies`, second copy (daily_report_kr.py lines 666-690);
its body is token-for-token identical to the first copy. -/
def detect_anomalies_second (s : GeoSummary) : List Finding :=
  disc_findings s.conversions s.ads_conversions ++
    suspicious_findings s.by_country ++ city_findings s.by_city

lemma filter_disc_suspicious (l : List CountryRow) :
    (suspicious_findings l).filter (fun f => decide (f.ftype = FType.sourceDiscrepancy)) = [] := by
  rw [List.filter_eq_nil_iff]
  intro f hf
  obtain ⟨c, _, rfl⟩ := List.mem_map.mp hf
  simp

lemma filter_disc_city (l : List CityRow) :
    (city_findings l).filter (fun f => decide (f.ftype = FType.sourceDiscrepancy)) = [] := by
  rw [List.filter_eq_nil_iff]
  intro f hf
  unfold city_findings at hf
  by_cases h : l.isEmpty
  · rw [if_pos h] at hf
    exact absurd hf (List.not_mem_nil f)
  · rw [if_neg h] at hf
    obtain ⟨c, _, hc⟩ := List.mem_filterMap.mp hf
    by_cases h1 : (l.map CityRow.conversions).sum > 0
    · rw [if_pos h1] at hc
      by_cases h2 : c.conversions / (l.map CityRow.conversions).sum * 100 > 25 ∧
          c.country ∉ TARGET_COUNTRIES
      · rw [if_pos h2] at hc
        cases hc
        simp
      · rw [if_neg h2] at hc
        cases hc
    · rw [if_neg h1] at hc
      cases hc

/-- C3: the detector emits exactly one source-discrepancy finding iff both
conversion totals are positive and `disc = |ga - ads| / ga * 100 > 30`, with
severity `high` iff `disc > 50` (else `medium`); otherwise none. -/
theorem source_discrepancy_rule (s : GeoSummary) :
    (detect_anomalies s).filter (fun f => decide (f.ftype = FType.sourceDiscrepancy)) =
      if s.conversions > 0 ∧ s.ads_conversions > 0 ∧
          |s.conversions - s.ads_conversions| / s.conversions * 100 > 30 then
        [⟨.sourceDiscrepancy,
          if |s.conversions - s.ads_conversions| / s.conversions * 100 > 50 then .high
          else .medium⟩]
      else [] := by
  unfold detect_anomalies
  rw [List.filter_append, List.filter_append, filter_disc_suspicious, filter_disc_city,
    List.append_nil, List.append_nil]
  unfold disc_findings
  by_cases h1 : s.conversions > 0 ∧ s.ads_conversions > 0
  · rw [if_pos h1]
    by_cases h2 : |s.conversions - s.ads_conversions| / s.conversions * 100 > 30
    · have h3 : s.conversions > 0 ∧ s.ads_conversions > 0 ∧
          |s.conversions - s.ads_conversions| / s.conversions * 100 > 30 := ⟨h1.1, h1.2, h2⟩
      rw [if_pos h2, if_pos h3]
      simp [List.filter]
    · rw [if_neg h2, if_neg (fun hc => h2 hc.2.2)]
      rfl
  · rw [if_neg h1, if_neg (fun hc => h1 ⟨hc.1, hc.2.1⟩)]
    rfl

lemma mem_disc_findings {f : Finding} {a b : ℚ} (h : f ∈ disc_findings a b) :
    f.ftype = FType.sourceDiscrepancy := by
  unfold disc_findings at h
  by_cases h1 : a > 0 ∧ b > 0
  · rw [if_pos h1] at h
    by_cases h2 : |a - b| / a * 100 > 30
    · rw [if_pos h2] at h
      rw [List.mem_singleton.mp h]
    · rw [if_neg h2] at h
      exact absurd h (List.not_mem_nil f)
  · rw [if_neg h1] at h
    exact absurd h (List.not_mem_nil f)

lemma mem_suspicious_findings {f : Finding} {l : List CountryRow}
    (h : f ∈ suspicious_findings l) : f = ⟨.suspiciousTraffic, .high⟩ := by
  obtain ⟨c, _, rfl⟩ := List.mem_map.mp h
  rfl

lemma mem_city_findings {f : Finding} {l : List CityRow}
    (h : f ∈ city_findings l) : f = ⟨.cityConcentration, .medium⟩ := by
  unfold city_findings at h
  by_cases h0 : l.isEmpty
  · rw [if_pos h0] at h
    exact absurd h (List.not_mem_nil f)
  · rw [if_neg h0] at h
    obtain ⟨c, _, hc⟩ := List.mem_filterMap.mp h
    by_cases h1 : (l.map CityRow.conversions).sum > 0
    · rw [if_pos h1] at hc
      by_cases h2 : c.conversions / (l.map CityRow.conversions).sum * 100 > 25 ∧
          c.country ∉ TARGET_COUNTRIES
      · rw [if_pos h2] at hc
        exact (Option.some.inj hc).symm
      · rw [if_neg h2] at hc
        cases hc
    · rw [if_neg h1] at hc
      cases hc

lemma detect_suspicious_eq (s : GeoSummary) :
    (detect_anomalies s).filter (fun f => decide (f.ftype = FType.suspiciousTraffic)) =
      suspicious_findings s.by_country := by
  unfold detect_anomalies
  rw [List.filter_append, List.filter_append]
  have h1 : (disc_findings s.conversions s.ads_conversions).filter
      (fun f => decide (f.ftype = FType.suspiciousTraffic)) = [] := by
    rw [List.filter_eq_nil_iff]
    intro f hf
    rw [mem_disc_findings hf]
    simp
  have h2 : (suspicious_findings s.by_country).filter
      (fun f => decide (f.ftype = FType.suspiciousTraffic)) =
      suspicious_findings s.by_country := by
    rw [List.filter_eq_self]
    intro f hf
    rw [mem_suspicious_findings hf]
    simp
  have h3 : (city_findings s.by_city).filter
      (fun f => decide (f.ftype = FType.suspiciousTraffic)) = [] := by
    rw [List.filter_eq_nil_iff]
    intro f hf
    rw [mem_city_findings hf]
    simp
  rw [h1, h2, h3, List.nil_append, List.append_nil]

/-- C6: the detector's suspicious-traffic findings are exactly one `high`
finding per geographic-breakdown country that is outside the target
allow-list AND has conversion rate above 10 AND conversion count above 10;
countries failing either threshold, and allow-listed countries, produce
none. -/
theorem suspicious_country_rule (s : GeoSummary) :
    (detect_anomalies s).filter (fun f => decide (f.ftype = FType.suspiciousTraffic)) =
      (s.by_country.filter (fun c =>
          decide (c.country ∉ TARGET_COUNTRIES ∧ c.cvr > 10 ∧ c.conversions > 10))).map
        (fun _ => ⟨.suspiciousTraffic, .high⟩) := by
  rw [detect_suspicious_eq]
  rfl

lemma detect_city_eq (s : GeoSummary) :
    (detect_anomalies s).filter (fun f => decide (f.ftype = FType.cityConcentration)) =
      city_findings s.by_city := by
  unfold detect_anomalies
  rw [List.filter_append, List.filter_append]
  have h1 : (disc_findings s.conversions s.ads_conversions).filter
      (fun f => decide (f.ftype = FType.cityConcentration)) = [] := by
    rw [List.filter_eq_nil_iff]
    intro f hf
    rw [mem_disc_findings hf]
    simp
  have h2 : (suspicious_findings s.by_country).filter
      (fun f => decide (f.ftype = FType.cityConcentration)) = [] := by
    rw [List.filter_eq_nil_iff]
    intro f hf
    rw [mem_suspicious_findings hf]
    simp
  have h3 : (city_findings s.by_city).filter
      (fun f => decide (f.ftype = FType.cityConcentration)) = city_findings s.by_city := by
    rw [List.filter_eq_self]
    intro f hf
    rw [mem_city_findings hf]
    simp
  rw [h1, h2, h3, List.nil_append, List.nil_append]

/-- C7 (amended): BOTH `_detect_anomalies` copies use the 25% threshold
(line 271 and line 686 both read `pct > 25`); among the first 3 cities, each
copy emits a `medium` finding exactly for cities whose share of total
conversions exceeds 25% with a non-target country, and emits nothing when
total conversions are not positive. -/
theorem city_concentration_rule (s : GeoSummary) :
    ((detect_anomalies s).filter (fun f => decide (f.ftype = FType.cityConcentration)) =
      (s.by_city.take 3).filterMap (fun c =>
        if (s.by_city.map CityRow.conversions).sum > 0 ∧
            c.conversions / (s.by_city.map CityRow.conversions).sum * 100 > 25 ∧
            c.country ∉ TARGET_COUNTRIES then
          some ⟨.cityConcentration, .medium⟩
        else none)) ∧
    detect_anomalies_second s = detect_anomalies s := by
  refine ⟨?_, rfl⟩
  rw [detect_city_eq]
  unfold city_findings
  by_cases h0 : s.by_city.isEmpty
  · rw [if_pos h0, List.isEmpty_iff.mp h0]
    rfl
  · rw [if_neg h0]
    apply List.filterMap_congr
    intro c _
    by_cases h1 : (s.by_city.map CityRow.conversions).sum > 0
    · rw [if_pos h1]
      by_cases h2 : c.conversions / (s.by_city.map CityRow.conversions).sum * 100 > 25 ∧
          c.country ∉ TARGET_COUNTRIES
      · rw [if_pos h2, if_pos ⟨h1, h2.1, h2.2⟩]
      · rw [if_neg h2, if_neg (fun hc => h2 ⟨hc.2.1, hc.2.2⟩)]
    · rw [if_neg h1, if_neg (fun hc => h1 hc.1)]

/-- C7 counterexample: a top-3 city holding a 28% share (28 of 100
conversions) in a non-target country is flagged by BOTH source copies of
`_detect_anomalies`, although 28% does not exceed 30% — so neither copy uses
the 30% threshold the claim attributes to one variant. -/
theorem city_threshold_counterexample :
    detect_anomalies ⟨0, 0, [],
        [⟨"CityX", "Nowhere", 28⟩, ⟨"CityY", "United States", 72⟩]⟩ =
      [⟨.cityConcentration, .medium⟩] ∧
    detect_anomalies_second ⟨0, 0, [],
        [⟨"CityX", "Nowhere", 28⟩, ⟨"CityY", "United States", 72⟩]⟩ =
      [⟨.cityConcentration, .medium⟩] ∧
    ¬((28 : ℚ) / (28 + 72) * 100 > 30) := by
  refine ⟨?_, ?_, by norm_num⟩ <;>
    · norm_num [detect_anomalies, detect_anomalies_second, disc_findings,
        suspicious_findings, city_findings, TARGET_COUNTRIES, List.filterMap]
      decide

/-- The tag shown next to a country in the rendered table
(`_build_html`, daily_report_kr.py line 319). -/
inductive Tag
  | target
  | suspect
  | blank
deriving DecidableEq

/-- Line 319: `타겟` for allow-listed countries, `확인필요` (needs review) for
countries with `cvr > 10` and `conversions > 5`, else no tag. -/
def country_tag (r : CountryRow) : Tag :=
  if r.country ∈ TARGET_COUNTRIES then .target
  else if r.cvr > 10 ∧ r.conversions > 5 then .suspect
  else .blank

/-- The country-table rows (lines 314-320): countries with zero conversions
are skipped (line 316-317), every other row carries its tag. -/
def country_table_rows (by_country : List CountryRow) : List (CountryRow × Tag) :=
  (by_country.filter (fun r => decide (r.conversions ≠ 0))).map (fun r => (r, country_tag r))

/-- C10: a non-target country with `cvr > 10` and `conversions > 5` is shown
in the table with the needs-review tag; if moreover `conversions ≤ 10`, the
suspicious-traffic rule (which needs `conversions > 10`) emits no finding for
it — the detector's findings are exactly the countries passing
`suspicious_cond`, which this country fails. -/
theorem suspect_tag_detector_gap (s : GeoSummary) (r : CountryRow)
    (h1 : r ∈ s.by_country) (h2 : r.country ∉ TARGET_COUNTRIES)
    (h3 : r.cvr > 10) (h4 : r.conversions > 5) :
    (r, Tag.suspect) ∈ country_table_rows s.by_country ∧
    (r.conversions ≤ 10 →
      suspicious_cond r = false ∧
      (detect_anomalies s).filter (fun f => decide (f.ftype = FType.suspiciousTraffic)) =
        (s.by_country.filter suspicious_cond).map (fun _ => ⟨.suspiciousTraffic, .high⟩)) := by
  constructor
  · have htag : country_tag r = Tag.suspect := by
      unfold country_tag
      rw [if_neg h2, if_pos ⟨h3, h4⟩]
    rw [← htag]
    apply List.mem_map_of_mem
    rw [List.mem_filter]
    exact ⟨h1, by simp; positivity⟩
  · intro hle
    refine ⟨?_, detect_suspicious_eq s⟩
    unfold suspicious_cond
    simp only [decide_eq_false_iff_not]
    rintro ⟨-, -, hgt⟩
    exact absurd hgt (not_lt.mpr hle)

/-- Witness for `suspect_tag_detector_gap`: a non-target country with
`cvr = 12`, `conversions = 7` gets the tag but fails the detector's volume
threshold. -/
theorem suspect_tag_detector_gap_witness :
    ((⟨"Nowhere", 100, 7, 12, 0⟩ : CountryRow), Tag.suspect) ∈
      country_table_rows [⟨"Nowhere", 100, 7, 12, 0⟩] ∧
    suspicious_cond ⟨"Nowhere", 100, 7, 12, 0⟩ = false := by
  have h := suspect_tag_detector_gap ⟨0, 0, [⟨"Nowhere", 100, 7, 12, 0⟩], []⟩
    ⟨"Nowhere", 100, 7, 12, 0⟩ (List.mem_singleton.mpr rfl) (by decide)
    (by norm_num) (by norm_num)
  exact ⟨h.1, (h.2 (by norm_num)).1⟩

end DailyReport
